import Mathlib

/-!
# BrickBridge protocol engine: verification of the Nxt session class

Shallow embedding of the Nxt class (src/unnamed/part_001) of the
BrickBridge repository.  The transport (NxtUsbCommunication) is modelled
as a script of 64-byte response buffers consumed in order by
receiveData, together with a log of every command buffer handed to
sendCommand.  JavaScript exceptions become an explicit error type; the
error.statusCode side channel becomes Err.statusCode.  Bytes are Nat
(a Uint8Array entry is always below 256); the 32-bit signed result of
the JavaScript bitwise-or decoding of little-endian fields is modelled
by jsInt32.
-/

namespace BrickBridge

/-- A byte buffer (a JS Uint8Array), as a list of naturals. -/
abbrev Bytes := List Nat

/-- Errors thrown by the Nxt class, one constructor per throw site.
Only stopProgram and deleteFile attach a statusCode field to the thrown
Error; Err.statusCode reproduces that. -/
inductive Err : Type where
  /-- Thrown as: No device connected (also when checkConnection is false). -/
  | noDeviceConnected : Err
  /-- Thrown by setBrickName: Name must be 15 characters or less. -/
  | nameTooLong : Err
  /-- Thrown by openLinearWrite: Filesize too long (name longer than 20). -/
  | filesizeTooLong : Err
  /-- Thrown by write: Data too long (more than 61 data bytes). -/
  | dataTooLong : Err
  /-- Thrown as: No file selected. -/
  | noFileSelected : Err
  /-- Thrown by uploadFile: Cannot verify firmware. -/
  | cannotVerifyFirmware : Err
  /-- Thrown by uploadProgram: Invalid file format; file does not end in
  the program-file suffix. -/
  | invalidFileExtension : Err
  /-- Thrown by uploadProgram: Invalid file format (bad magic header). -/
  | invalidFormat : Err
  /-- Thrown by setBrickName: Failed to set brick name, error code c. -/
  | setBrickNameError (code : Nat) : Err
  /-- Thrown by openLinearWrite: Failed to open linear write, error code c. -/
  | openLinearWriteError (code : Nat) : Err
  /-- Thrown by write: Failed to write data, error code c. -/
  | writeError (code : Nat) : Err
  /-- Thrown by the uploadFile epilogue: Failed to upload file, error code c. -/
  | uploadError (code : Nat) : Err
  /-- Thrown by stopProgram: Failed to stop program, error code c, with
  the statusCode property set to c. -/
  | stopProgramError (code : Nat) : Err
  /-- Thrown by deleteFile: Failed to delete file, error code c, with
  the statusCode property set to c. -/
  | deleteFileError (code : Nat) : Err
  /-- Thrown by listFiles: Failed to close handle, error code c. -/
  | closeHandleError (code : Nat) : Err
  /-- The JS RangeError raised by Uint8Array.set with a source longer
  than the target (reachable in deleteFile, whose file name is not
  length-checked before padding). -/
  | rangeError : Err
  /-- The JS TypeError raised by reading index 2 of undefined (the
  uploadFile epilogue when the write loop ran zero iterations). -/
  | undefinedIndex : Err
  /-- The transport produced no response buffer (receiveData with an
  exhausted script; in reality the call would stall forever). -/
  | noData : Err
deriving DecidableEq, Repr

/-- The statusCode property of the thrown JS Error: only stopProgram and
deleteFile set it; on every other error it is undefined, modelled as
none. -/
def Err.statusCode : Err → Option Nat
  | .stopProgramError c => some c
  | .deleteFileError c => some c
  | _ => none

/-- The observable state of a session: whether this.connectedDevice is
set, the script of response buffers the device will produce (consumed in
order by receiveData), and the log of command buffers passed to
sendCommand, in order. -/
structure St : Type where
  connected : Bool
  script : List Bytes
  sent : List Bytes
deriving DecidableEq, Repr

/-- The session monad: explicit state passing with JS exceptions.  The
state survives a thrown error, so the log of sent commands is observable
even on failing runs. -/
def NxtM (α : Type) : Type := St → Except Err α × St

namespace NxtM

def pureM (a : α) : NxtM α := fun st => (.ok a, st)

def bindM (m : NxtM α) (f : α → NxtM β) : NxtM β := fun st =>
  match m st with
  | (.ok a, st') => f a st'
  | (.error e, st') => (.error e, st')

instance : Monad NxtM where
  pure := pureM
  bind := bindM

/-- Model of a JS throw statement. -/
def throwErr (e : Err) : NxtM α := fun st => (.error e, st)

/-- Model of a JS try/catch: state changes made before the throw persist. -/
def tryCatch (m : NxtM α) (h : Err → NxtM α) : NxtM α := fun st =>
  match m st with
  | (.error e, st') => h e st'
  | r => r

/-- Read the current session state. -/
def getSt : NxtM St := fun st => (.ok st, st)

end NxtM

open NxtM

/-- Model of this.connectedDevice.sendCommand(cmd): hand one command
buffer to the transport (appended to the log). -/
def sendCommand (cmd : Bytes) : NxtM Unit := fun st =>
  (.ok (), { st with sent := st.sent ++ [cmd] })

/-- Model of this.connectedDevice.receiveData(): the next 64-byte
response of the script.  An exhausted script is the transport never
answering. -/
def receiveData : NxtM Bytes := fun st =>
  match st.script with
  | [] => (.error .noData, st)
  | r :: rest => (.ok r, { st with script := rest })

/-- Model of: if (!this.connectedDevice) throw No device connected. -/
def requireDevice : NxtM Unit := do
  let st ← getSt
  if st.connected then pureM () else throwErr .noDeviceConnected

/-- Indexing a Uint8Array: in-range reads give the byte; the model
defaults out-of-range reads to 0. -/
def byteAt (data : Bytes) (i : Nat) : Nat := data.getD i 0

/-- Model of String.fromCharCode over the bytes followed by the global
replacement of the NUL character with the empty string: decode char
codes, then strip every NUL. -/
def decodeString (bytes : Bytes) : String :=
  String.mk ((bytes.map Char.ofNat).filter (fun c => c ≠ Char.ofNat 0))

/-- The value JavaScript computes for the expression
a | (b shl 8) | (c shl 16) | (d shl 24) on bytes: a signed 32-bit
result. -/
def jsInt32 (n : Nat) : Int :=
  if n % 4294967296 < 2147483648 then (n % 4294967296 : Nat)
  else (n % 4294967296 : Int) - 4294967296

/-- The little-endian value of four bytes. -/
def leNat (b0 b1 b2 b3 : Nat) : Nat :=
  b0 + b1 * 256 + b2 * 65536 + b3 * 16777216

/-- Model of a zero-initialized Uint8Array of width w filled by set with
the char codes of s: the char codes padded with NULs to width w (callers
guard length, except deleteFile: see Err.rangeError). -/
def padBytes (w : Nat) (s : String) : Bytes :=
  s.data.map Char.toNat ++ List.replicate (w - s.length) 0

/-- The record returned by getFirmwareVersion. -/
structure FirmwareVersion : Type where
  minorProtocol : Nat
  majorProtocol : Nat
  minorFirmware : Nat
  majorFirmware : Nat
deriving DecidableEq, Repr

/-- The record returned by getDeviceInfo. -/
structure DeviceInfo : Type where
  nxtName : String
  btAddress : Bytes
  btSignalStrength : Int
  freeUserFlash : Int
deriving DecidableEq, Repr

/-- The record built by the private method handleFindReturnPacket. -/
structure FindPacket : Type where
  handle : Nat
  name : String
  fileSize : Int
deriving DecidableEq, Repr

/-- One name/size entry of the array returned by listFiles. -/
structure FileEntry : Type where
  name : String
  size : Int
deriving DecidableEq, Repr

/-- A JS File object: a name and its content bytes. -/
structure JsFile : Type where
  name : String
  content : Bytes
deriving DecidableEq, Repr

/-- Model of getFirmwareVersion(): send the opcode pair 0x01 0x88,
receive, and decode bytes 3 through 6.  The status byte is never
inspected. -/
def getFirmwareVersion : NxtM FirmwareVersion := do
  requireDevice
  sendCommand [0x01, 0x88]
  let data ← receiveData
  pureM ⟨byteAt data 3, byteAt data 4, byteAt data 5, byteAt data 6⟩

/-- Model of checkConnection(): wrap getFirmwareVersion; any failure
becomes false.  The probe command stays sent even when this returns
false. -/
def checkConnection : NxtM Bool :=
  NxtM.tryCatch
    (do
      requireDevice
      let _ ← getFirmwareVersion
      pureM true)
    (fun _ => pureM false)

/-- Model of getDeviceInfo(): send the opcode pair 0x01 0x9B, receive,
and decode the name (bytes 3 through 17, NULs stripped), the BT address
(bytes 18 through 23), and two little-endian 32-bit fields.  The status
byte is never inspected. -/
def getDeviceInfo : NxtM DeviceInfo := do
  requireDevice
  sendCommand [0x01, 0x9b]
  let data ← receiveData
  pureM
    { nxtName := decodeString ((data.drop 3).take 15)
      btAddress := (data.drop 18).take 6
      btSignalStrength :=
        jsInt32 (leNat (byteAt data 25) (byteAt data 26) (byteAt data 27) (byteAt data 28))
      freeUserFlash :=
        jsInt32 (leNat (byteAt data 29) (byteAt data 30) (byteAt data 31) (byteAt data 32)) }

/-- Model of setBrickName(name): device check, liveness probe, and only
then the length check; on success send the opcode pair 0x01 0x98 with
the name padded to 15 bytes, and fail on a nonzero status. -/
def setBrickName (name : String) : NxtM Unit := do
  requireDevice
  let ok ← checkConnection
  if ok then pureM () else throwErr .noDeviceConnected
  if name.length > 15 then throwErr .nameTooLong else pureM ()
  sendCommand ([0x01, 0x98] ++ padBytes 15 name)
  let data ← receiveData
  if byteAt data 2 ≠ 0 then throwErr (.setBrickNameError (byteAt data 2)) else pureM ()

/-- Model of the private method with JS name underscore-openLinearWrite:
reject names over 20 chars, send the opcode pair 0x01 0x89 with the name
padded to 20 bytes and the size as four little-endian bytes, fail on a
nonzero status, and return the handle byte (offset 3). -/
def openLinearWrite (name : String) (size : Nat) : NxtM Nat := do
  if name.length > 20 then throwErr .filesizeTooLong else pureM ()
  sendCommand ([0x01, 0x89] ++ padBytes 20 name ++
    [size % 256, size / 256 % 256, size / 65536 % 256, size / 16777216 % 256])
  let data ← receiveData
  if byteAt data 2 ≠ 0 then throwErr (.openLinearWriteError (byteAt data 2)) else pureM ()
  pureM (byteAt data 3)

/-- Model of the private method with JS name underscore-write: reject
more than 61 data bytes; opcode class 0x01 (with response) or 0x81
(without), opcode 0x83, then the handle and the data.  A with-response
write receives, fails on a nonzero status, and returns the response
(some); a without-response write returns undefined (none). -/
def write (handle : Nat) (data : Bytes) (requireResponse : Bool) :
    NxtM (Option Bytes) := do
  if data.length > 64 - 3 then throwErr .dataTooLong else pureM ()
  sendCommand ((if requireResponse then 0x01 else 0x81) :: 0x83 :: handle :: data)
  if requireResponse then do
    let response ← receiveData
    if byteAt response 2 ≠ 0 then throwErr (.writeError (byteAt response 2)) else pureM ()
    pureM (some response)
  else pureM none

/-- Model of stopProgram(): device check, probe, send the direct command
0x00 0x01, and on a nonzero status throw an error carrying
statusCode equal to the status. -/
def stopProgram : NxtM Unit := do
  requireDevice
  let ok ← checkConnection
  if ok then pureM () else throwErr .noDeviceConnected
  sendCommand [0x00, 0x01]
  let data ← receiveData
  if byteAt data 2 ≠ 0 then throwErr (.stopProgramError (byteAt data 2)) else pureM ()

/-- Model of deleteFile(fileName): device check, probe, pad the name to
20 bytes (Uint8Array.set throws a RangeError for names over 20 chars;
there is no explicit length check in this method), send the opcode pair
0x01 0x85 with the padded name, and on a nonzero status throw an error
carrying statusCode equal to the status. -/
def deleteFile (fileName : String) : NxtM Unit := do
  requireDevice
  let ok ← checkConnection
  if ok then pureM () else throwErr .noDeviceConnected
  if fileName.length > 20 then throwErr .rangeError else pureM ()
  sendCommand ([0x01, 0x85] ++ padBytes 20 fileName)
  let data ← receiveData
  if byteAt data 2 ≠ 0 then throwErr (.deleteFileError (byteAt data 2)) else pureM ()

/-- Model of handleFindReturnPacket(data): the handle from byte 3, the
name from the JS expression data.slice(4, 23), which is offsets 4
through 22, nineteen bytes, because a JS slice excludes its end index,
with NULs stripped, and the size little-endian from bytes 24 through
27. -/
def handleFindReturnPacket (data : Bytes) : FindPacket :=
  { handle := byteAt data 3
    name := decodeString ((data.drop 4).take 19)
    fileSize :=
      jsInt32 (leNat (byteAt data 24) (byteAt data 25) (byteAt data 26) (byteAt data 27)) }

/-- The name/size entry listFiles pushes for one find response. -/
def findEntry (data : Bytes) : FileEntry :=
  ⟨(handleFindReturnPacket data).name, (handleFindReturnPacket data).fileSize⟩

/-- The while-not-lastFile loop of listFiles: send find-next (opcode
pair 0x01 0x87 plus the handle), receive; status 0 appends another entry
and continues, any nonzero status ends the listing.  The loop consumes
one script entry per iteration, so calling it with fuel equal to the
script length plus one makes the zero-fuel branch unreachable; its value
(noData) is what receiveData itself produces once the script is
exhausted. -/
def listLoop (handle : Nat) : Nat → List FileEntry → NxtM (List FileEntry)
  | 0, _ => throwErr .noData
  | fuel + 1, files => do
      sendCommand [0x01, 0x87, handle]
      let data ← receiveData
      if byteAt data 2 = 0 then
        listLoop handle fuel (files ++ [findEntry data])
      else pureM files

/-- Model of listFiles(): device check, probe, find-first (opcode pair
0x01 0x86) with the star-dot-star pattern padded to 20 bytes, decode the
first response without checking its status, loop find-next, then close
the handle and fail on a nonzero close status. -/
def listFiles : NxtM (List FileEntry) := do
  requireDevice
  let ok ← checkConnection
  if ok then pureM () else throwErr .noDeviceConnected
  sendCommand ([0x01, 0x86] ++ [0x2a, 0x2e, 0x2a] ++ List.replicate 17 0)
  let data ← receiveData
  let fileInfo := handleFindReturnPacket data
  let handle := fileInfo.handle
  let files := [(⟨fileInfo.name, fileInfo.fileSize⟩ : FileEntry)]
  let st ← getSt
  let files ← listLoop handle (st.script.length + 1) files
  sendCommand [0x01, 0x84, handle]
  let data ← receiveData
  if byteAt data 2 ≠ 0 then throwErr (.closeHandleError (byteAt data 2)) else pureM ()
  pureM files

/-- The body of the upload loop of uploadFile, which steps an index i by
61 (the packet chunk size 64 minus 3): each iteration slices the next
61-byte chunk, flags isLastChunk when i + 61 reaches or passes the data
length, and calls write; the value left in the response variable is the
last iteration result, and none (JS undefined) when the loop ran zero
iterations. -/
def writeLoop (handle : Nat) (data : Bytes) : NxtM (Option Bytes) :=
  if data = [] then pureM none
  else if data.length ≤ 61 then write handle (data.take 61) true
  else do
    let _ ← write handle (data.take 61) false
    writeLoop handle (data.drop 61)
termination_by data.length
decreasing_by simp_all [List.length_drop]; omega

/-- The chunk decomposition performed by the upload loop: the successive
61-byte slices of the content, each paired with its isLastChunk flag. -/
def uploadChunks (data : Bytes) : List (Bytes × Bool) :=
  if data = [] then []
  else if data.length ≤ 61 then [(data.take 61, true)]
  else (data.take 61, false) :: uploadChunks (data.drop 61)
termination_by data.length
decreasing_by simp_all [List.length_drop]; omega

/-- The command buffer the write loop sends for one chunk: opcode class
0x01 when a response is required (the last chunk) and 0x81 otherwise,
opcode 0x83, the handle, then the chunk bytes. -/
def writeCmd (handle : Nat) (chunk : Bytes × Bool) : Bytes :=
  (if chunk.2 then 0x01 else 0x81) :: 0x83 :: handle :: chunk.1

/-- The fixed on-device target name of the upload algorithm. -/
def untitledTarget : String := "Untitled1.rxe"

/-- Model of uploadFile(file, stopProgram): device check, probe,
file-present check, firmware major version must be 1, optionally stop
the running program (absorbing statusCode 236), delete the file under
its own name (absorbing statusCode 135), open a linear write under the
fixed name Untitled1.rxe with declared size 244, stream the chunks,
check index 2 of the loop result (a JS TypeError when the content was
empty), and finally send, without awaiting any response, the
close-handle command. -/
def uploadFile (file : Option JsFile) (stopExisting : Bool) : NxtM Unit := do
  requireDevice
  let ok ← checkConnection
  if ok then pureM () else throwErr .noDeviceConnected
  match file with
  | none => throwErr .noFileSelected
  | some f => do
    let data := f.content
    let firmwareVersion ← getFirmwareVersion
    if firmwareVersion.majorFirmware ≠ 1 then throwErr .cannotVerifyFirmware else pureM ()
    if stopExisting then
      NxtM.tryCatch stopProgram
        (fun e => if e.statusCode ≠ some 236 then throwErr e else pureM ())
    else pureM ()
    NxtM.tryCatch (deleteFile f.name)
      (fun e => if e.statusCode ≠ some 135 then throwErr e else pureM ())
    let handle ← openLinearWrite untitledTarget 244
    let response ← writeLoop handle data
    match response with
    | none => throwErr .undefinedIndex
    | some resp => do
      if byteAt resp 2 ≠ 0 then throwErr (.uploadError (byteAt resp 2)) else pureM ()
      sendCommand [0x01, 0x84, handle]

/-- The 13-byte executable magic 4D 69 6E 64 73 74 6F 72 6D 73 4E 58 54. -/
def expectedHeader : Bytes :=
  [0x4d, 0x69, 0x6e, 0x64, 0x73, 0x74, 0x6f, 0x72, 0x6d, 0x73, 0x4e, 0x58, 0x54]

/-- Model of String.prototype.toLowerCase. -/
def jsToLower (s : String) : String := String.mk (s.data.map Char.toLower)

/-- The program-file suffix checked by uploadProgram. -/
def rxeSuffix : String := ".rxe"

/-- Model of the JS method endsWith on strings: the characters of t are
a suffix of the characters of s. -/
def jsEndsWith (s t : String) : Bool := t.data.isSuffixOf s.data

/-- Model of the header comparison in uploadProgram, the JS expression
header.every with the predicate comparing each header byte against the
expected byte at the same index, where header holds the first at most 13
content bytes: every ranges over the indices of header itself, so a
short header is compared only as far as it reaches. -/
def headerMatches (content : Bytes) : Bool :=
  ((content.take 13).zip expectedHeader).all (fun p => p.1 == p.2)

/-- Model of uploadProgram(file): file-present check, the
case-insensitive program-suffix check on the name, the magic-header
check on the first 13 content bytes, then uploadFile with
stopProgram set to true. -/
def uploadProgram (file : Option JsFile) : NxtM Unit := do
  match file with
  | none => throwErr .noFileSelected
  | some f => do
    if ¬ jsEndsWith (jsToLower f.name) rxeSuffix then throwErr .invalidFileExtension
    else pureM ()
    if ¬ headerMatches f.content then throwErr .invalidFormat else pureM ()
    uploadFile (some f) true

/-! ## Script and command constants used by the theorems -/

/-- An all-zero 64-byte response (status 0). -/
def ok64 : Bytes := List.replicate 64 0

/-- A firmware-version reply reporting protocol 1.4 and firmware 1.31:
the major firmware byte (offset 6) is 1, as uploadFile requires. -/
def fwResp1 : Bytes := [0x02, 0x88, 0, 4, 1, 31, 1] ++ List.replicate 57 0

/-- A 64-byte reply whose status byte (offset 2) is s. -/
def statusResp (s : Nat) : Bytes := [0x02, 0x00, s] ++ List.replicate 61 0

/-- A successful open-linear-write reply handing out handle h. -/
def openResp (h : Nat) : Bytes := [0x02, 0x89, 0, h] ++ List.replicate 60 0

/-- The get-firmware-version command buffer. -/
def fwCmd : Bytes := [0x01, 0x88]

/-- The get-device-info command buffer. -/
def diCmd : Bytes := [0x01, 0x9b]

/-- The stop-program direct command buffer. -/
def stopCmd : Bytes := [0x00, 0x01]

/-- The find-first command buffer with the star-dot-star pattern. -/
def ffCmd : Bytes := [0x01, 0x86] ++ [0x2a, 0x2e, 0x2a] ++ List.replicate 17 0

/-- The find-next command buffer for handle h. -/
def fnCmd (h : Nat) : Bytes := [0x01, 0x87, h]

/-- The close-handle command buffer for handle h. -/
def closeCmd (h : Nat) : Bytes := [0x01, 0x84, h]

/-- The delete-file command buffer for a file name. -/
def delCmd (name : String) : Bytes := [0x01, 0x85] ++ padBytes 20 name

/-- The open-linear-write command buffer uploadFile issues: the fixed
target name Untitled1.rxe padded to 20 bytes and the fixed declared size
244 as four little-endian bytes. -/
def openCmd : Bytes := [0x01, 0x89] ++ padBytes 20 untitledTarget ++
  [244 % 256, 244 / 256 % 256, 244 / 65536 % 256, 244 / 16777216 % 256]

/-- A name of sixteen characters, one over the rename limit. -/
def name16 : String := "ABCDEFGHIJKLMNOP"

/-- A file name with the program suffix, five characters long. -/
def rxeName : String := "a.rxe"

/-- A find reply with status 0, handle 7, a name field holding the
twenty letters A through T at offsets 4 through 23, and size 1 at
offsets 24 through 27. -/
def findResp20 : Bytes :=
  [0x02, 0x86, 0, 7] ++ (List.range 20).map (fun i => 65 + i) ++
    [1, 0, 0, 0] ++ List.replicate 36 0

/-- The nineteen letters A through S: what the packet decoder actually
produces from the twenty-letter name field of findResp20. -/
def truncName : String := "ABCDEFGHIJKLMNOPQRS"

/-- A find reply with status 1 (an error), handle 7, a name field
holding the three letters A B C, and size 1. -/
def findRespBad : Bytes :=
  [0x02, 0x86, 1, 7] ++ [65, 66, 67] ++ List.replicate 16 0 ++
    [0, 1, 0, 0, 0] ++ List.replicate 36 0

/-- The three letters A B C, the name field of findRespBad. -/
def abcName : String := "ABC"

/-- A firmware-version reply with a nonzero status byte (1) and the same
payload bytes as fwResp1. -/
def badFwResp : Bytes := [0x02, 0x88, 1, 4, 1, 31, 1] ++ List.replicate 57 0

/-- A three-byte program file named a.rxe. -/
def rxeSmall : JsFile := ⟨rxeName, [1, 2, 3]⟩

/-! ## Helper lemmas -/

theorem bind_def (m : NxtM α) (f : α → NxtM β) : m >>= f = NxtM.bindM m f := rfl

theorem pure_def (a : α) : (Pure.pure a : NxtM α) = NxtM.pureM a := rfl

/-- Running the find-next loop against a script that answers each of the
responses in mids with status 0 and then one response bad with a nonzero
status: every mids response is decoded and appended in order, one
find-next command is sent per response consumed, and the rest of the
script is untouched. -/
theorem listLoop_run (h : Nat) (mids : List Bytes) (bad : Bytes) (rest : List Bytes)
    (fuel : Nat) (acc : List FileEntry) (c : Bool) (sent : List Bytes)
    (hmids : ∀ m ∈ mids, byteAt m 2 = 0) (hbad : byteAt bad 2 ≠ 0)
    (hfuel : mids.length < fuel) :
    listLoop h fuel acc ⟨c, mids ++ bad :: rest, sent⟩ =
      (.ok (acc ++ mids.map findEntry),
       ⟨c, rest, sent ++ List.replicate (mids.length + 1) [0x01, 0x87, h]⟩) := by
  induction mids generalizing fuel acc sent with
  | nil =>
    cases fuel with
    | zero => omega
    | succ f =>
      simp [listLoop, bind_def, pure_def, NxtM.bindM, NxtM.pureM, sendCommand,
        receiveData, NxtM.throwErr, hbad]
  | cons m ms ih =>
    cases fuel with
    | zero => simp at hfuel
    | succ f =>
      have hm : byteAt m 2 = 0 := hmids m (by simp)
      have hms : ∀ x ∈ ms, byteAt x 2 = 0 := fun x hx => hmids x (by simp [hx])
      simp only [List.cons_append, listLoop, bind_def, NxtM.bindM, sendCommand,
        receiveData, hm, if_true]
      rw [ih f (acc ++ [findEntry m]) (sent ++ [[1, 135, h]]) hms (by simp at hfuel ⊢; omega)]
      simp [List.replicate_succ, List.append_assoc]

/-- C1 counterexample: with a connected, answering device and the
sixteen-character name, setBrickName does fail with the name-too-long
error, but a firmware-version probe command HAS been passed to the
transport before the length check, so the sent log is not empty. -/
theorem c1_counterexample :
    setBrickName name16 ⟨true, [ok64], []⟩ =
      (.error .nameTooLong, ⟨true, [], [fwCmd]⟩) ∧ ([fwCmd] : List Bytes) ≠ [] := by
  constructor
  · rfl
  · simp [fwCmd]

/-- C1 amended: for every name longer than 15 characters, with a
connected device whose script answers the liveness probe, setBrickName
fails with the name-too-long error after sending exactly one command,
the firmware-version probe; no rename command is sent. -/
theorem c1_amended (name : String) (r : Bytes) (rest sent : List Bytes)
    (h : 15 < name.length) :
    setBrickName name ⟨true, r :: rest, sent⟩ =
      (.error .nameTooLong, ⟨true, rest, sent ++ [fwCmd]⟩) := by
  simp [setBrickName, requireDevice, checkConnection, getFirmwareVersion, NxtM.tryCatch,
    sendCommand, receiveData, NxtM.getSt, NxtM.pureM, NxtM.bindM, NxtM.throwErr,
    bind_def, pure_def, h, Nat.not_le.mpr h, fwCmd]

/-- C1 witness. -/
theorem c1_witness :
    15 < name16.length ∧
      setBrickName name16 ⟨true, [ok64], []⟩ =
        (.error .nameTooLong, ⟨true, [], [] ++ [fwCmd]⟩) :=
  ⟨by decide, c1_amended name16 ok64 [] [] (by decide)⟩

/-- C2 counterexample: a firmware reply with status byte 1 is decoded by
getFirmwareVersion into a FirmwareVersion record built from the payload
bytes, returned as a success. -/
theorem c2_counterexample :
    byteAt badFwResp 2 = 1 ∧
      getFirmwareVersion ⟨true, [badFwResp], []⟩ =
        (.ok ⟨4, 1, 31, 1⟩, ⟨true, [], [fwCmd]⟩) := by
  constructor
  · rfl
  · rfl

/-- C2 amended: getFirmwareVersion and getDeviceInfo never check the
status byte; for every response with a nonzero status byte both return a
success holding the payload bytes decoded at the documented offsets. -/
theorem c2_amended (resp : Bytes) (rest sent : List Bytes) (_h : byteAt resp 2 ≠ 0) :
    getFirmwareVersion ⟨true, resp :: rest, sent⟩ =
      (.ok ⟨byteAt resp 3, byteAt resp 4, byteAt resp 5, byteAt resp 6⟩,
       ⟨true, rest, sent ++ [fwCmd]⟩) ∧
    getDeviceInfo ⟨true, resp :: rest, sent⟩ =
      (.ok { nxtName := decodeString ((resp.drop 3).take 15)
             btAddress := (resp.drop 18).take 6
             btSignalStrength :=
               jsInt32 (leNat (byteAt resp 25) (byteAt resp 26) (byteAt resp 27) (byteAt resp 28))
             freeUserFlash :=
               jsInt32 (leNat (byteAt resp 29) (byteAt resp 30) (byteAt resp 31) (byteAt resp 32)) },
       ⟨true, rest, sent ++ [diCmd]⟩) := by
  constructor
  · simp [getFirmwareVersion, requireDevice, sendCommand, receiveData, NxtM.getSt,
      NxtM.pureM, NxtM.bindM, bind_def, pure_def, fwCmd]
  · simp [getDeviceInfo, requireDevice, sendCommand, receiveData, NxtM.getSt,
      NxtM.pureM, NxtM.bindM, bind_def, pure_def, diCmd]

/-- C2 witness. -/
theorem c2_witness :
    byteAt badFwResp 2 ≠ 0 ∧
      (getFirmwareVersion ⟨true, badFwResp :: [], []⟩ =
        (.ok ⟨byteAt badFwResp 3, byteAt badFwResp 4, byteAt badFwResp 5, byteAt badFwResp 6⟩,
         ⟨true, [], [] ++ [fwCmd]⟩) ∧
      getDeviceInfo ⟨true, badFwResp :: [], []⟩ =
        (.ok { nxtName := decodeString ((badFwResp.drop 3).take 15)
               btAddress := (badFwResp.drop 18).take 6
               btSignalStrength :=
                 jsInt32 (leNat (byteAt badFwResp 25) (byteAt badFwResp 26)
                   (byteAt badFwResp 27) (byteAt badFwResp 28))
               freeUserFlash :=
                 jsInt32 (leNat (byteAt badFwResp 29) (byteAt badFwResp 30)
                   (byteAt badFwResp 31) (byteAt badFwResp 32)) },
         ⟨true, [], [] ++ [diCmd]⟩)) :=
  ⟨by decide, c2_amended badFwResp [] [] (by decide)⟩

/-- C3 counterexample: the find-first reply findRespBad carries status 1
(nonzero), yet listFiles neither fails with that status nor skips the
entry: it returns a successful listing containing the FileInfo decoded
from that very reply. -/
theorem c3_counterexample :
    byteAt findRespBad 2 = 1 ∧
      listFiles ⟨true, [ok64, findRespBad, statusResp 9, ok64], []⟩ =
        (.ok [⟨abcName, 1⟩], ⟨true, [], [fwCmd, ffCmd, fnCmd 7, closeCmd 7]⟩) := by
  constructor
  · rfl
  · rfl

/-- C3 amended: listFiles does not check the find-first status byte.
For every find-first reply with a nonzero status, the reply is decoded
anyway, its FileInfo entry is appended, and enumeration proceeds with
find-next; the nonzero find-first status is never surfaced. -/
theorem c3_amended (ff bad close : Bytes)
    (_hff : byteAt ff 2 ≠ 0) (hbad : byteAt bad 2 ≠ 0) (hclose : byteAt close 2 = 0) :
    listFiles ⟨true, [ok64, ff, bad, close], []⟩ =
      (.ok [findEntry ff],
       ⟨true, [], [fwCmd, ffCmd, fnCmd (byteAt ff 3), closeCmd (byteAt ff 3)]⟩) := by
  have hrun := listLoop_run (handleFindReturnPacket ff).handle [] bad [close] 3
    [⟨(handleFindReturnPacket ff).name, (handleFindReturnPacket ff).fileSize⟩]
    true [[1, 136], [1, 134, 42, 46, 42, 0, 0, 0, 0, 0, 0, 0, 0, 0, 0, 0, 0, 0, 0, 0, 0, 0]]
    (by simp) hbad (by simp)
  simp only [List.nil_append, List.map_nil, List.length_nil, List.append_nil,
    Nat.zero_add] at hrun
  simp +arith [listFiles, bind_def, pure_def, NxtM.bindM, NxtM.pureM, requireDevice,
    checkConnection, getFirmwareVersion, NxtM.tryCatch, sendCommand, receiveData,
    NxtM.getSt, NxtM.throwErr, ok64, fwCmd, ffCmd, fnCmd, closeCmd]
  rw [hrun]
  simp [hclose, findEntry, handleFindReturnPacket, NxtM.bindM, NxtM.pureM]

/-- C3 witness. -/
theorem c3_witness :
    byteAt findRespBad 2 ≠ 0 ∧
      listFiles ⟨true, [ok64, findRespBad, statusResp 9, ok64], []⟩ =
        (.ok [findEntry findRespBad],
         ⟨true, [], [fwCmd, ffCmd, fnCmd (byteAt findRespBad 3), closeCmd (byteAt findRespBad 3)]⟩) :=
  ⟨by decide, c3_amended findRespBad (statusResp 9) ok64 (by decide) (by decide) (by decide)⟩

/-- C4: with a script answering find-first with status 0, each of the
next mids find-next calls with status 0, the following find-next with a
nonzero status, and the close with status good, listFiles returns the
N = mids.length + 1 decoded entries in device order, sends exactly one
close-handle command, and a nonzero close status is fatal with its code
preserved. -/
theorem c4_listFiles_enumeration (ff : Bytes) (mids : List Bytes) (bad : Bytes)
    (_hff : byteAt ff 2 = 0) (hmids : ∀ m ∈ mids, byteAt m 2 = 0)
    (hbad : byteAt bad 2 ≠ 0) :
    (∀ good, byteAt good 2 = 0 →
      listFiles ⟨true, ok64 :: ff :: (mids ++ bad :: [good]), []⟩ =
        (.ok (findEntry ff :: mids.map findEntry),
         ⟨true, [],
          [fwCmd, ffCmd] ++ List.replicate (mids.length + 1) (fnCmd (byteAt ff 3)) ++
            [closeCmd (byteAt ff 3)]⟩)) ∧
    ([fwCmd, ffCmd] ++ List.replicate (mids.length + 1) (fnCmd (byteAt ff 3)) ++
        [closeCmd (byteAt ff 3)]).count (closeCmd (byteAt ff 3)) = 1 ∧
    (∀ good, byteAt good 2 ≠ 0 →
      listFiles ⟨true, ok64 :: ff :: (mids ++ bad :: [good]), []⟩ =
        (.error (.closeHandleError (byteAt good 2)),
         ⟨true, [],
          [fwCmd, ffCmd] ++ List.replicate (mids.length + 1) (fnCmd (byteAt ff 3)) ++
            [closeCmd (byteAt ff 3)]⟩)) := by
  refine ⟨fun good hgood => ?_, ?_, fun good hgood => ?_⟩
  · have hrun := listLoop_run (handleFindReturnPacket ff).handle mids bad [good]
      (mids.length + 3)
      [⟨(handleFindReturnPacket ff).name, (handleFindReturnPacket ff).fileSize⟩]
      true [[1, 136], [1, 134, 42, 46, 42, 0, 0, 0, 0, 0, 0, 0, 0, 0, 0, 0, 0, 0, 0, 0, 0, 0]]
      hmids hbad (by omega)
    simp +arith [listFiles, bind_def, pure_def, NxtM.bindM, NxtM.pureM, requireDevice,
      checkConnection, getFirmwareVersion, NxtM.tryCatch, sendCommand, receiveData,
      NxtM.getSt, NxtM.throwErr, ok64, fwCmd, ffCmd, fnCmd, closeCmd]
    rw [hrun]
    simp [hgood, findEntry, handleFindReturnPacket, List.replicate_succ, NxtM.bindM,
      NxtM.pureM]
  · simp [fwCmd, ffCmd, fnCmd, closeCmd, List.count_append, List.count_replicate,
      List.count_cons, beq_iff_eq]
  · have hrun := listLoop_run (handleFindReturnPacket ff).handle mids bad [good]
      (mids.length + 3)
      [⟨(handleFindReturnPacket ff).name, (handleFindReturnPacket ff).fileSize⟩]
      true [[1, 136], [1, 134, 42, 46, 42, 0, 0, 0, 0, 0, 0, 0, 0, 0, 0, 0, 0, 0, 0, 0, 0, 0]]
      hmids hbad (by omega)
    simp +arith [listFiles, bind_def, pure_def, NxtM.bindM, NxtM.pureM, requireDevice,
      checkConnection, getFirmwareVersion, NxtM.tryCatch, sendCommand, receiveData,
      NxtM.getSt, NxtM.throwErr, ok64, fwCmd, ffCmd, fnCmd, closeCmd]
    rw [hrun]
    simp [hgood, findEntry, handleFindReturnPacket, List.replicate_succ, NxtM.bindM,
      NxtM.pureM, NxtM.throwErr]

/-- C4 witness: two files, one find-first and one successful find-next,
then end-of-listing and a clean close. -/
theorem c4_witness :
    byteAt findResp20 2 = 0 ∧
      listFiles ⟨true, ok64 :: findResp20 :: ([findResp20] ++ statusResp 9 :: [ok64]), []⟩ =
        (.ok (findEntry findResp20 :: ([findResp20] : List Bytes).map findEntry),
         ⟨true, [],
          [fwCmd, ffCmd] ++ List.replicate (([findResp20] : List Bytes).length + 1)
            (fnCmd (byteAt findResp20 3)) ++ [closeCmd (byteAt findResp20 3)]⟩) :=
  ⟨by decide,
    (c4_listFiles_enumeration findResp20 [findResp20] (statusResp 9) (by decide)
      (by decide) (by decide)).1 ok64 (by decide)⟩

theorem uploadChunks_join (data : Bytes) :
    ((uploadChunks data).map Prod.fst).flatten = data := by
  induction data using uploadChunks.induct with
  | case1 => simp [uploadChunks]
  | case2 data h1 h2 => simp [uploadChunks, h1, h2, List.take_of_length_le h2]
  | case3 data h1 h2 ih =>
    rw [uploadChunks]
    simp only [if_neg h1, if_neg h2, List.map_cons, List.flatten_cons, ih]
    exact List.take_append_drop 61 data

theorem uploadChunks_ne_nil (data : Bytes) (h : data ≠ []) : uploadChunks data ≠ [] := by
  rw [uploadChunks]
  split
  · exact absurd (by assumption) h
  · split <;> simp

theorem uploadChunks_flags (data : Bytes) (h : data ≠ []) :
    (uploadChunks data).map Prod.snd =
      List.replicate ((uploadChunks data).length - 1) false ++ [true] := by
  induction data using uploadChunks.induct with
  | case1 => exact absurd rfl h
  | case2 data h1 h2 => simp [uploadChunks, h1, h2]
  | case3 data h1 h2 ih =>
    have hne : List.drop 61 data ≠ [] := by
      intro hnil
      have := congrArg List.length hnil
      simp [List.length_drop] at this
      omega
    have hlen : (uploadChunks (List.drop 61 data)).length ≥ 1 := by
      cases hu : uploadChunks (List.drop 61 data) with
      | nil => exact absurd hu (uploadChunks_ne_nil _ hne)
      | cons a l => simp
    rw [uploadChunks]
    simp only [if_neg h1, if_neg h2, List.map_cons, ih hne, List.length_cons]
    rw [show (uploadChunks (List.drop 61 data)).length + 1 - 1 =
      ((uploadChunks (List.drop 61 data)).length - 1) + 1 from by omega]
    simp [List.replicate_succ]

theorem writeLoop_run (h : Nat) (data : Bytes) (hdata : data ≠ []) :
    ∀ (resp : Bytes) (rest sent : List Bytes) (c : Bool), byteAt resp 2 = 0 →
      writeLoop h data ⟨c, resp :: rest, sent⟩ =
        (.ok (some resp), ⟨c, rest, sent ++ (uploadChunks data).map (writeCmd h)⟩) := by
  induction data using writeLoop.induct h with
  | case1 => exact absurd rfl hdata
  | case2 data h1 h2 =>
    intro resp rest sent c hresp
    have hle : ¬ ((data.take 61).length > 64 - 3) := by
      simp [List.length_take]
    rw [writeLoop, if_neg h1, if_pos h2, uploadChunks, if_neg h1, if_pos h2]
    simp [write, bind_def, pure_def, NxtM.bindM, NxtM.pureM, NxtM.throwErr,
      sendCommand, receiveData, hle, hresp, writeCmd]
  | case3 data h1 h2 ih =>
    intro resp rest sent c hresp
    have hne : List.drop 61 data ≠ [] := by
      intro hnil
      have := congrArg List.length hnil
      simp [List.length_drop] at this
      omega
    have hle : ¬ ((data.take 61).length > 64 - 3) := by
      simp [List.length_take]
    rw [writeLoop, if_neg h1, if_neg h2, uploadChunks, if_neg h1, if_neg h2]
    simp only [write, bind_def, pure_def, NxtM.bindM, NxtM.pureM, NxtM.throwErr,
      sendCommand, receiveData, hle, if_neg hle, if_false, Bool.false_eq_true,
      ite_false, ite_true]
    rw [ih hne resp rest (sent ++ [129 :: 131 :: h :: List.take 61 data]) c hresp]
    simp [writeCmd, List.append_assoc]

theorem byteAt_statusResp_2 (s : Nat) : byteAt (statusResp s) 2 = s := rfl

theorem byteAt_fwResp1_6 : byteAt fwResp1 6 = 1 := rfl

theorem byteAt_openResp_2 (h : Nat) : byteAt (openResp h) 2 = 0 := rfl

theorem byteAt_openResp_3 (h : Nat) : byteAt (openResp h) 3 = h := rfl

/-- C5: splitting any content at the 61-byte stride of the upload loop
and concatenating the chunks reproduces the content exactly; for
nonempty content the isLastChunk flags are false for every chunk but the
last and true for the last; and the write loop, run against a device
accepting the final with-response write, sends exactly one write command
per chunk, with opcode class 0x01 (response required) on the last chunk
and 0x81 (no response) on every other. -/
theorem c5_chunk_roundtrip (data : Bytes) :
    ((uploadChunks data).map Prod.fst).flatten = data ∧
    (data ≠ [] → (uploadChunks data).map Prod.snd =
      List.replicate ((uploadChunks data).length - 1) false ++ [true]) ∧
    (∀ (h : Nat) (resp : Bytes) (rest sent : List Bytes) (c : Bool),
      data ≠ [] → byteAt resp 2 = 0 →
      writeLoop h data ⟨c, resp :: rest, sent⟩ =
        (.ok (some resp), ⟨c, rest, sent ++ (uploadChunks data).map (writeCmd h)⟩)) :=
  ⟨uploadChunks_join data, uploadChunks_flags data,
   fun h resp rest sent c hd hr => writeLoop_run h data hd resp rest sent c hr⟩

/-- C5 witness: one hundred bytes, split into a 61-byte chunk sent
without response and a 39-byte final chunk sent with response. -/
theorem c5_witness :
    (List.range 100 ≠ ([] : Bytes)) ∧
    ((uploadChunks (List.range 100)).map Prod.snd =
      List.replicate ((uploadChunks (List.range 100)).length - 1) false ++ [true]) ∧
    writeLoop 7 (List.range 100) ⟨true, statusResp 0 :: [], []⟩ =
      (.ok (some (statusResp 0)),
       ⟨true, [], [] ++ (uploadChunks (List.range 100)).map (writeCmd 7)⟩) :=
  ⟨by decide, (c5_chunk_roundtrip (List.range 100)).2.1 (by decide),
   (c5_chunk_roundtrip (List.range 100)).2.2 7 (statusResp 0) [] [] true (by decide) (by decide)⟩

/-- C6 (code bug): a file named a.rxe with empty content, whose first 13
bytes are therefore not the magic sequence, nevertheless passes both
validations of uploadProgram: the run proceeds into uploadFile, a
command buffer is passed to the transport (the probe), and the resulting
error is not the invalid-format error.  The header comparison also
accepts any strict prefix of the magic, such as the 5-byte content
Minds. -/
theorem c6_code_bug :
    uploadProgram (some ⟨rxeName, []⟩) ⟨true, [], []⟩ =
      (.error .noDeviceConnected, ⟨true, [], [fwCmd]⟩) ∧
    headerMatches [] = true ∧
    headerMatches [0x4d, 0x69, 0x6e, 0x64, 0x73] = true ∧
    ([] : Bytes) ≠ expectedHeader ∧
    ([0x4d, 0x69, 0x6e, 0x64, 0x73] : Bytes) ≠ expectedHeader := by
  refine ⟨rfl, by decide, by decide, by decide, by decide⟩

theorem untitledTarget_length : untitledTarget.length = 13 := rfl

theorem rxeName_length : rxeName.length = 5 := rfl

/-- C7: inside uploadFile, a stop-program reply with status 236 and a
delete-file reply with status 135 are absorbed and the upload proceeds
to completion, while any other nonzero status at either call site is
fatal and propagates with its numeric code preserved in the error. -/
theorem c7_absorb_or_propagate :
    (∀ s, s ≠ 0 → s ≠ 236 →
      uploadFile (some rxeSmall) true ⟨true, [ok64, fwResp1, ok64, statusResp s], []⟩ =
        (.error (.stopProgramError s), ⟨true, [], [fwCmd, fwCmd, fwCmd, stopCmd]⟩)) ∧
    (∀ t, t ≠ 0 → t ≠ 135 →
      uploadFile (some rxeSmall) true
          ⟨true, [ok64, fwResp1, ok64, statusResp 236, ok64, statusResp t], []⟩ =
        (.error (.deleteFileError t),
         ⟨true, [], [fwCmd, fwCmd, fwCmd, stopCmd, fwCmd, delCmd rxeName]⟩)) ∧
    (uploadFile (some rxeSmall) true
        ⟨true, [ok64, fwResp1, ok64, statusResp 236, ok64, statusResp 135,
                openResp 7, statusResp 0], []⟩ =
      (.ok (),
       ⟨true, [],
        [fwCmd, fwCmd, fwCmd, stopCmd, fwCmd, delCmd rxeName, openCmd,
         writeCmd 7 ([1, 2, 3], true), closeCmd 7]⟩)) := by
  refine ⟨fun s hs hs236 => ?_, fun t ht ht135 => ?_, ?_⟩
  · simp [uploadFile, requireDevice, checkConnection, getFirmwareVersion, stopProgram,
      NxtM.tryCatch, sendCommand, receiveData, NxtM.getSt, NxtM.pureM, NxtM.bindM,
      NxtM.throwErr, bind_def, pure_def, byteAt_fwResp1_6, byteAt_statusResp_2,
      Err.statusCode, hs, hs236, fwCmd, stopCmd]
  · simp [uploadFile, requireDevice, checkConnection, getFirmwareVersion, stopProgram,
      deleteFile, NxtM.tryCatch, sendCommand, receiveData, NxtM.getSt, NxtM.pureM,
      NxtM.bindM, NxtM.throwErr, bind_def, pure_def, byteAt_fwResp1_6,
      byteAt_statusResp_2, Err.statusCode, ht, ht135, fwCmd, stopCmd, delCmd,
      rxeSmall, rxeName_length]
  · have hch : uploadChunks [1, 2, 3] = [([1, 2, 3], true)] := by
      rw [uploadChunks]
      decide
    have hrun := writeLoop_run 7 [1, 2, 3] (by decide) (statusResp 0) []
    simp [uploadFile, requireDevice, checkConnection, getFirmwareVersion,
      stopProgram, deleteFile, openLinearWrite, NxtM.tryCatch, sendCommand,
      receiveData, NxtM.getSt, NxtM.pureM, NxtM.bindM, NxtM.throwErr, bind_def,
      pure_def, byteAt_fwResp1_6, byteAt_statusResp_2, byteAt_openResp_2,
      byteAt_openResp_3, Err.statusCode, rxeSmall, rxeName_length,
      untitledTarget_length, fwCmd, stopCmd, delCmd, openCmd, closeCmd]
    rw [hrun _ _ (byteAt_statusResp_2 0)]
    simp [NxtM.bindM, NxtM.pureM, sendCommand, byteAt_statusResp_2, hch, writeCmd]

/-- C7 witness: status 1 at the stop-program site and at the
delete-file site each propagate with the code preserved. -/
theorem c7_witness :
    uploadFile (some rxeSmall) true ⟨true, [ok64, fwResp1, ok64, statusResp 1], []⟩ =
      (.error (.stopProgramError 1), ⟨true, [], [fwCmd, fwCmd, fwCmd, stopCmd]⟩) ∧
    uploadFile (some rxeSmall) true
        ⟨true, [ok64, fwResp1, ok64, statusResp 236, ok64, statusResp 1], []⟩ =
      (.error (.deleteFileError 1),
       ⟨true, [], [fwCmd, fwCmd, fwCmd, stopCmd, fwCmd, delCmd rxeName]⟩) :=
  ⟨c7_absorb_or_propagate.1 1 (by decide) (by decide), c7_absorb_or_propagate.2.1 1 (by decide) (by decide)⟩

/-- C8 (code bug): the find-packet decoder applied to a reply whose
20-byte name field holds the letters A through T returns only the 19
letters A through S: the decoder reads offsets 4 through 22, dropping
offset 23, so a 20-character name loses its final character.  Decoding
the full 20-byte field would give a different name. -/
theorem c8_code_bug :
    handleFindReturnPacket findResp20 = ⟨7, truncName, 1⟩ ∧
    truncName.length = 19 ∧
    decodeString ((findResp20.drop 4).take 20) ≠ truncName := by
  refine ⟨rfl, rfl, by decide⟩

/-- C10: uploading a file with empty content (under any name of at most
20 characters) opens the linear-write handle, runs zero write
iterations, then fails with the JS TypeError of indexing the undefined
loop response; the close-handle command is never sent. -/
theorem c10_empty_upload (name : String) (hname : name.length ≤ 20) :
    uploadFile (some ⟨name, []⟩) false
        ⟨true, [ok64, fwResp1, ok64, statusResp 0, openResp 7], []⟩ =
      (.error .undefinedIndex,
       ⟨true, [], [fwCmd, fwCmd, fwCmd, delCmd name, openCmd]⟩) ∧
    closeCmd 7 ∉ [fwCmd, fwCmd, fwCmd, delCmd name, openCmd] := by
  constructor
  · simp [uploadFile, writeLoop, requireDevice, checkConnection, getFirmwareVersion,
      deleteFile, openLinearWrite, NxtM.tryCatch, sendCommand, receiveData, NxtM.getSt,
      NxtM.pureM, NxtM.bindM, NxtM.throwErr, bind_def, pure_def, byteAt_fwResp1_6,
      byteAt_statusResp_2, byteAt_openResp_2, byteAt_openResp_3, Err.statusCode,
      untitledTarget_length, show ¬ (20 < name.length) from by omega,
      fwCmd, delCmd, openCmd]
  · simp [closeCmd, fwCmd, delCmd, openCmd]

/-- C10 witness. -/
theorem c10_witness :
    uploadFile (some ⟨rxeName, []⟩) false
        ⟨true, [ok64, fwResp1, ok64, statusResp 0, openResp 7], []⟩ =
      (.error .undefinedIndex,
       ⟨true, [], [fwCmd, fwCmd, fwCmd, delCmd rxeName, openCmd]⟩) ∧
    closeCmd 7 ∉ [fwCmd, fwCmd, fwCmd, delCmd rxeName, openCmd] :=
  c10_empty_upload rxeName (by decide)

/-- C9: whatever the uploaded file is (any name of at most 20
characters, any content), the first five commands uploadFile passes to
the transport are three firmware probes, the delete command for the
actual file name, and the open-linear-write command carrying the fixed
target name Untitled1.rxe and the fixed declared size 244. -/
theorem c9_fixed_target (f : JsFile) (hname : f.name.length ≤ 20) :
    (((uploadFile (some f) false)
        ⟨true, [ok64, fwResp1, ok64, statusResp 0, openResp 7, statusResp 0], []⟩).2.sent).take 5 =
      [fwCmd, fwCmd, fwCmd, delCmd f.name, openCmd] ∧
    delCmd f.name = [0x01, 0x85] ++ padBytes 20 f.name ∧
    openCmd = [0x01, 0x89] ++ padBytes 20 untitledTarget ++ [244, 0, 0, 0] := by
  refine ⟨?_, rfl, by norm_num [openCmd]⟩
  by_cases hc : f.content = []
  · simp [uploadFile, writeLoop, requireDevice, checkConnection, getFirmwareVersion,
      deleteFile, openLinearWrite, NxtM.tryCatch, sendCommand, receiveData, NxtM.getSt,
      NxtM.pureM, NxtM.bindM, NxtM.throwErr, bind_def, pure_def, byteAt_fwResp1_6,
      byteAt_statusResp_2, byteAt_openResp_2, byteAt_openResp_3, Err.statusCode, hc,
      untitledTarget_length, show ¬ (20 < f.name.length) from by omega,
      fwCmd, delCmd, openCmd, List.take_of_length_le]
  · have hrun := writeLoop_run 7 f.content hc (statusResp 0) []
    simp [uploadFile, requireDevice, checkConnection, getFirmwareVersion,
      deleteFile, openLinearWrite, NxtM.tryCatch, sendCommand, receiveData, NxtM.getSt,
      NxtM.pureM, NxtM.bindM, NxtM.throwErr, bind_def, pure_def, byteAt_fwResp1_6,
      byteAt_statusResp_2, byteAt_openResp_2, byteAt_openResp_3, Err.statusCode,
      untitledTarget_length, show ¬ (20 < f.name.length) from by omega,
      fwCmd, delCmd, openCmd]
    rw [hrun _ _ (byteAt_statusResp_2 0)]
    simp [NxtM.bindM, NxtM.pureM, sendCommand, byteAt_statusResp_2]

/-- C9 witness. -/
theorem c9_witness :
    (((uploadFile (some rxeSmall) false)
        ⟨true, [ok64, fwResp1, ok64, statusResp 0, openResp 7, statusResp 0], []⟩).2.sent).take 5 =
      [fwCmd, fwCmd, fwCmd, delCmd rxeSmall.name, openCmd] ∧
    delCmd rxeSmall.name = [0x01, 0x85] ++ padBytes 20 rxeSmall.name ∧
    openCmd = [0x01, 0x89] ++ padBytes 20 untitledTarget ++ [244, 0, 0, 0] :=
  c9_fixed_target rxeSmall (by decide)

end BrickBridge
